import Mathlib

/-
Verification development for the acorn logging database core
(acorn/logging/database.py): the object tracker, the per-task
key-value store (TaskDB), its throttled save / load persistence,
and the process-wide cleanup routine.

The Python source is embedded shallowly:
 - Python dicts become association lists (insertion-ordered, which is
   all the claims depend on);
 - the values that flow through entries and the uuid registries become
   the inductive type PyVal; a value parsed by uuid.UUID(...) becomes
   the constructor PyVal.uuidObj, which is a distinct Python object
   that never compares equal to any string, exactly as in Python 2,
   where dict membership of a UUID instance in a str-keyed dict is
   always False;
 - the filesystem becomes an explicit FS value threaded through save
   and load; a write can fail (unwritable path, unserializable data),
   mirroring IOError / TypeError from open and json.dump, and the
   try/except of TaskDB.save is modelled by save being a total
   function that inspects the outcome of the attempted write;
 - time() and the savefreq configuration option become explicit
   numeric arguments (timestamps in seconds);
 - uuid4() becomes an explicit generator function Nat -> String
   applied to a running counter (a fresh-name supply standing for the
   negligible-collision randomness of uuid4).
-/

set_option autoImplicit false

namespace Acorn

/-- Python runtime values as they appear inside entries and the uuid
registries: None, str, int, list, dict with string keys, a parsed
uuid.UUID object (stored as its 32 lowercase hex digits), and opaque
objects identified by their memory id. -/
inductive PyVal where
  | none
  | str (s : String)
  | int (n : Int)
  | list (xs : List PyVal)
  | dict (kvs : List (String × PyVal))
  | uuidObj (hex : String)
  | obj (oid : Nat)

/-- The Python exceptions the embedded TaskDB.record can raise. -/
inductive PyErr where
  | keyError
  | typeError
deriving DecidableEq

/-- Association-list lookup, the model of Python dict lookup and of
the membership tests `k in d`. -/
def alookup {α β : Type} [DecidableEq α] (k : α) : List (α × β) → Option β
  | [] => Option.none
  | p :: ps => if p.1 = k then some p.2 else alookup k ps

/-! Model of the strict identity-format parse performed by the
uuid.UUID constructor (Python 2.7): remove every occurrence of
"urn:" and then of "uuid:", strip curly braces from both ends,
remove all dashes, and require exactly 32 hexadecimal digits.
On success the value is the canonical 32-digit lowercase hex form
held by the resulting UUID object. -/

/-- Remove every (non-overlapping, left-to-right) occurrence of the
pattern, the model of Python str.replace(pat, ""). Recursion is by a
fuel argument that starts at the length of the list; each step either
drops one character or a whole pattern occurrence, so the fuel never
runs out. -/
def stripOccFuel (pat : List Char) : Nat → List Char → List Char
  | 0, l => l
  | _ + 1, [] => []
  | fuel + 1, c :: rest =>
    if pat.length > 0 ∧ List.take pat.length (c :: rest) = pat then
      stripOccFuel pat fuel (List.drop (pat.length - 1) rest)
    else
      c :: stripOccFuel pat fuel rest

def stripOcc (pat l : List Char) : List Char :=
  stripOccFuel pat l.length l

def isBraceChar (c : Char) : Bool := c = '{' ∨ c = '}'

/-- Python str.strip applied with the two brace characters. -/
def stripBraces (l : List Char) : List Char :=
  ((l.dropWhile isBraceChar).reverse.dropWhile isBraceChar).reverse

def isHexDig (c : Char) : Bool :=
  c.isDigit ∨ ('a' ≤ c ∧ c ≤ 'f') ∨ ('A' ≤ c ∧ c ≤ 'F')

/-- The strict parse attempted by uuid.UUID(s); some canonical hex
value on success, none when s is not identity-shaped (the Python code
raises ValueError there and the caller treats s as a plain string). -/
def pyUUIDparse (s : String) : Option String :=
  let h1 := stripOcc "urn:".data s.data
  let h2 := stripOcc "uuid:".data h1
  let h3 := stripBraces h2
  let h4 := h3.filter (fun c => c ≠ '-')
  if h4.length = 32 ∧ h4.all isHexDig then
    some (String.mk (h4.map Char.toLower))
  else
    Option.none

/-! The object tracker (database.py, tracker, lines 98-144) classifies
an arbitrary runtime value. The modelled universe of Python objects: -/

/-- The untracked primitive kinds scanned inside containers
(basestring, int, long, float, complex in the source; the model
carries the integer and string cases, which are the ones the
specification exercises). -/
inductive Prim where
  | int (n : Int)
  | str (s : String)

/-- The four semi-trackable container types. -/
inductive CKind where
  | list
  | dict
  | set
  | tuple

/-- Shape of a runtime object as far as tracker inspects it. For a
dict the elems are the keys, because Python iteration over a dict
yields its keys and tracker only ever iterates the container. The
constructors stand for the branch of the source if/elif chain the
object satisfies first; in Python 2 types.LambdaType is the same
object as types.FunctionType, so lambdaObj covers the objects taken
by that earlier branch and funcObj/methodObj the ones reaching the
later name branch. -/
inductive PyObjVal where
  | prim (p : Prim)
  | container (ck : CKind) (elems : List PyObjVal)
  | typeObj (name : String)
  | lambdaObj (varnames : List String)
  | funcObj (name : String)
  | methodObj (name : String)
  | ufuncObj (name : String)
  | other

/-- A runtime object: its memory id (Python id()) and its shape. -/
structure PyObj where
  oid : Nat
  val : PyObjVal

/-- Instance (database.py, lines 355-370): pid is the memory address,
uuid the str(uuid4()) durable identity, obj the wrapped object. -/
structure Instance where
  pid : Nat
  uuid : String
  obj : PyObj

/-- The process-wide module state used by tracker: the two parallel
indices oids (keyed by id()) and uuids (keyed by the identity string),
plus the fresh-identity counter standing for the uuid4 supply. -/
structure TrackState where
  oids : List (Nat × Instance)
  uuids : List (String × Instance)
  counter : Nat

/-- What tracker returns: a summary / name string, an Instance, or
None for untracked primitives. -/
inductive TrackResult where
  | str (s : String)
  | inst (i : Instance)
  | none

def toPrim : PyObjVal → Option Prim
  | PyObjVal.prim p => some p
  | _ => Option.none

/-- isinstance(t, untracked) for a container element. -/
def isPrimObj (v : PyObjVal) : Bool := (toPrim v).isSome

/-- Python 2 ordering used by min/max over semi-tracked containers:
numbers compare below strings, ints by value, strings
lexicographically. -/
def primLt : Prim → Prim → Bool
  | Prim.int a, Prim.int b => decide (a < b)
  | Prim.int _, Prim.str _ => true
  | Prim.str _, Prim.int _ => false
  | Prim.str a, Prim.str b => decide (a < b)

/-- Left-to-right scan of Python min: replace the accumulator only on
a strictly smaller element. -/
def primsMin : Prim → List Prim → Prim
  | m, [] => m
  | m, p :: ps => primsMin (if primLt p m then p else m) ps

/-- Left-to-right scan of Python max: replace the accumulator only on
a strictly larger element. -/
def primsMax : Prim → List Prim → Prim
  | m, [] => m
  | m, p :: ps => primsMax (if primLt m p then p else m) ps

def pyMin : List Prim → Prim
  | [] => Prim.int 0
  | p :: ps => primsMin p ps

def pyMax : List Prim → Prim
  | [] => Prim.int 0
  | p :: ps => primsMax p ps

/-- str() rendering used when a min/max lands in the format string. -/
def primStr : Prim → String
  | Prim.int n => toString n
  | Prim.str s => s

/-- Python 2 str(type(obj)) for the four container builtins, which is
what "{0}".format(type(obj)) renders. -/
def ckindStr : CKind → String
  | CKind.list => "<type \x27list\x27>"
  | CKind.dict => "<type \x27dict\x27>"
  | CKind.set => "<type \x27set\x27>"
  | CKind.tuple => "<type \x27tuple\x27>"

/-- The tracked fallback branch (database.py, lines 131-142): look the
object up by id() in oids; on a miss mint a new Instance with a fresh
identity and register it in both indices. -/
def trackObj (gen : Nat → String) (st : TrackState) (o : PyObj) :
    TrackResult × TrackState :=
  match alookup o.oid st.oids with
  | some r => (TrackResult.inst r, st)
  | Option.none =>
    let r : Instance := ⟨o.oid, gen st.counter, o⟩
    (TrackResult.inst r,
     ⟨st.oids ++ [(o.oid, r)], st.uuids ++ [(r.uuid, r)], st.counter + 1⟩)

/-- tracker (database.py, lines 98-144). The branches follow the
source if/elif chain: semi-tracked summary for a container whose
every element is an untracked primitive, names for types, lambdas,
functions, methods and numpy ufuncs, the tracked fallback for
anything else that is not an untracked primitive, and None for the
primitives themselves. -/
def tracker (gen : Nat → String) (st : TrackState) (o : PyObj) :
    TrackResult × TrackState :=
  match o.val with
  | PyObjVal.container ck elems =>
    if elems.all isPrimObj then
      if elems.length > 0 then
        (TrackResult.str (ckindStr ck ++ " len=" ++ toString elems.length
          ++ " min=" ++ primStr (pyMin (elems.filterMap toPrim))
          ++ " max=" ++ primStr (pyMax (elems.filterMap toPrim))), st)
      else
        (TrackResult.str (ckindStr ck ++ " len=0"), st)
    else
      trackObj gen st o
  | PyObjVal.typeObj name => (TrackResult.str name, st)
  | PyObjVal.lambdaObj varnames =>
    (TrackResult.str ("lambda (" ++ String.intercalate ", " varnames ++ ")"), st)
  | PyObjVal.funcObj name => (TrackResult.str name, st)
  | PyObjVal.methodObj name => (TrackResult.str name, st)
  | PyObjVal.ufuncObj name => (TrackResult.str ("numpy." ++ name), st)
  | PyObjVal.prim _ => (TrackResult.none, st)
  | PyObjVal.other => trackObj gen st o

/-! The per-task database (database.py, class TaskDB, lines 195-353)
and its persistence model. -/

/-- In-memory state of one TaskDB: entities maps an entity key to the
ordered list of entries recorded for it, uuids maps an identity string
to the stored description, dbpath is the JSON file path, lastsave the
timestamp (seconds) of the last save decision. -/
structure TaskDB where
  entities : List (String × List PyVal)
  uuids : List (String × PyVal)
  dbpath : String
  lastsave : Option Nat

/-- The on-disk JSON object: top-level keys entities and uuids. -/
structure DiskDB where
  entities : List (String × List PyVal)
  uuids : List (String × PyVal)

/-- A file on disk: a well-formed database JSON object, or the
truncated/partial text left behind when open(path, w) succeeded but
json.dump failed midway. -/
inductive DiskFile where
  | good (d : DiskDB)
  | corrupt

/-- The filesystem: path-indexed contents plus the set of paths on
which opening for write raises IOError. -/
structure FS where
  files : List (String × DiskFile)
  unwritable : List String

/-- Overwrite-or-create a file entry. -/
def setFile (files : List (String × DiskFile)) (path : String) (v : DiskFile) :
    List (String × DiskFile) :=
  if (alookup path files).isSome then
    files.map (fun p => if p.1 = path then (p.1, v) else p)
  else
    files ++ [(path, v)]

mutual
/-- Whether json.dump can serialize the value: None, str, int, and
lists/dicts of serializable values; UUID objects and opaque instances
raise TypeError. -/
def jsonableVal : PyVal → Bool
  | PyVal.none => true
  | PyVal.str _ => true
  | PyVal.int _ => true
  | PyVal.list xs => jsonableList xs
  | PyVal.dict kvs => jsonableKVs kvs
  | PyVal.uuidObj _ => false
  | PyVal.obj _ => false

def jsonableList : List PyVal → Bool
  | [] => true
  | v :: vs => jsonableVal v && jsonableList vs

def jsonableKVs : List (String × PyVal) → Bool
  | [] => true
  | kv :: rest => jsonableVal kv.2 && jsonableKVs rest
end

def jsonableEntities (es : List (String × List PyVal)) : Bool :=
  es.all (fun p => jsonableList p.2)

def jsonableDB (d : DiskDB) : Bool :=
  jsonableEntities d.entities && jsonableKVs d.uuids

/-- The write attempted inside the try of TaskDB.save: open(dbpath, w)
then json.dump. An unwritable path raises IOError before the file is
touched; an unserializable value raises TypeError after open has
already truncated the file. Returns the resulting filesystem and
whether the dump completed. -/
def dumpTry (fs : FS) (path : String) (d : DiskDB) : FS × Bool :=
  if path ∈ fs.unwritable then
    (fs, false)
  else if jsonableDB d then
    ({ fs with files := setFile fs.files path (DiskFile.good d) }, true)
  else
    ({ fs with files := setFile fs.files path DiskFile.corrupt }, false)

/-- Append an entry under a key: TaskDB.record lines 243-246. -/
def addEntry (es : List (String × List PyVal)) (k : String) (e : PyVal) :
    List (String × List PyVal) :=
  if (alookup k es).isSome then
    es.map (fun p => if p.1 = k then (p.1, p.2 ++ [e]) else p)
  else
    es ++ [(k, [e])]

/-- TaskDB._log_uuid (lines 222-233): store a description for uid only
when uid is not yet a key of self.uuids and is a key of the
process-wide uuids index. Both indices are keyed by identity strings,
so a non-string uid (in particular a parsed UUID object) never passes
the membership test and the call is a no-op. describeF stands for
Instance.describe, whose output is resolved by the external
descriptor layer. -/
def TaskDB.log_uuid (db : TaskDB) (guuids : List (String × Instance))
    (describeF : Instance → PyVal) (uid : PyVal) : TaskDB :=
  match uid with
  | PyVal.str s =>
    if (alookup s db.uuids).isNone then
      match alookup s guuids with
      | some inst => { db with uuids := db.uuids ++ [(s, describeF inst)] }
      | Option.none => db
    else db
  | _ => db

/-- The per-argument scan in TaskDB.record (lines 255-279): strings
are given to uuid.UUID; on a successful parse the resulting UUID
object is handed to _log_uuid, on ValueError the string is skipped;
non-strings are skipped before the parse. -/
def scanArg (d : TaskDB) (guuids : List (String × Instance))
    (describeF : Instance → PyVal) (v : PyVal) : TaskDB :=
  match v with
  | PyVal.str s =>
    match pyUUIDparse s with
    | some h => TaskDB.log_uuid d guuids describeF (PyVal.uuidObj h)
    | Option.none => d
  | _ => d

/-- Lines 250-252: if entry["returns"] is not None, hand it (the raw
value, with no UUID parse) to _log_uuid. -/
def retLog (db1 : TaskDB) (guuids : List (String × Instance))
    (describeF : Instance → PyVal) (ret : PyVal) : TaskDB :=
  match ret with
  | PyVal.none => db1
  | _ => TaskDB.log_uuid db1 guuids describeF ret

/-- Lines 254-279 once args["__"] has been found: scan the positional
values, then every named argument value except the reserved key.
Iteration over args["__"] follows Python: a list yields its elements,
a string yields its characters (as 1-character strings), a dict
yields its keys; anything else is not iterable and raises
TypeError. -/
def recScanPos (db2 : TaskDB) (guuids : List (String × Instance))
    (describeF : Instance → PyVal) (akvs : List (String × PyVal)) :
    TaskDB × Option PyErr :=
  match alookup "__" akvs with
  | Option.none => (db2, some PyErr.keyError)
  | some (PyVal.list largs) =>
    (akvs.foldl (fun d kv => if kv.1 = "__" then d else scanArg d guuids describeF kv.2)
      (largs.foldl (fun d larg => scanArg d guuids describeF larg) db2), Option.none)
  | some (PyVal.str s) =>
    (akvs.foldl (fun d kv => if kv.1 = "__" then d else scanArg d guuids describeF kv.2)
      (s.data.foldl (fun d c => scanArg d guuids describeF (PyVal.str (String.mk [c]))) db2),
     Option.none)
  | some (PyVal.dict dkvs) =>
    (akvs.foldl (fun d kv => if kv.1 = "__" then d else scanArg d guuids describeF kv.2)
      (dkvs.foldl (fun d kv => scanArg d guuids describeF (PyVal.str kv.1)) db2),
     Option.none)
  | some _ => (db2, some PyErr.typeError)

/-- Line 255: subscript entry["args"], which must be a dict. -/
def recScanArgs (db2 : TaskDB) (guuids : List (String × Instance))
    (describeF : Instance → PyVal) (kvs : List (String × PyVal)) :
    TaskDB × Option PyErr :=
  match alookup "args" kvs with
  | Option.none => (db2, some PyErr.keyError)
  | some (PyVal.dict akvs) => recScanPos db2 guuids describeF akvs
  | some _ => (db2, some PyErr.typeError)

/-- The identity-scanning phase of TaskDB.record (lines 250-279) for
an entry dict: look at the returns value, then the reserved
positional list args["__"], then the named argument values. A
missing key is a KeyError; a non-dict / non-list where one is
subscripted or iterated is a TypeError. -/
def recScanDict (db1 : TaskDB) (guuids : List (String × Instance))
    (describeF : Instance → PyVal) (kvs : List (String × PyVal)) :
    TaskDB × Option PyErr :=
  match alookup "returns" kvs with
  | Option.none => (db1, some PyErr.keyError)
  | some ret =>
    recScanArgs (retLog db1 guuids describeF ret) guuids describeF kvs

/-- The scanning phase on an arbitrary entry value: only a dict can
be scanned, anything else fails on the first subscript. -/
def recScan (db1 : TaskDB) (guuids : List (String × Instance))
    (describeF : Instance → PyVal) (entry : PyVal) :
    TaskDB × Option PyErr :=
  match entry with
  | PyVal.dict kvs => recScanDict db1 guuids describeF kvs
  | _ => (db1, some PyErr.typeError)

/-- TaskDB.record (lines 235-279). The entry is appended to
entities[ekey] first (lines 243-246); only then does the scanning
phase read the returns value and the argument lists, so an exception
raised there leaves the entry already appended. The returned
Option PyErr is the exception that propagates to the caller, none
when record completes. -/
def TaskDB.record (db : TaskDB) (guuids : List (String × Instance))
    (describeF : Instance → PyVal) (ekey : String) (entry : PyVal) :
    TaskDB × Option PyErr :=
  recScan { db with entities := addEntry db.entities ekey entry }
    guuids describeF entry

/-- Elapsed whole minutes since the last save, computed in
TaskDB.save lines 327-332: int(delta.total_seconds()/60) from
lastsave, and savefreq + 1 (always overdue) when lastsave is None. -/
def elapsedMin (savefreq now : Nat) (last : Option Nat) : Nat :=
  match last with
  | some t => (now - t) / 60
  | Option.none => savefreq + 1

/-- Result of one TaskDB.save call: the updated database, the updated
filesystem, and whether a disk write completed. -/
structure SaveResult where
  db : TaskDB
  fs : FS
  wrote : Bool

/-- TaskDB.save (lines 311-353). When the elapsed minutes exceed
savefreq or force is set: if the session is not writeable, only
lastsave is refreshed and the write is skipped; otherwise the write is
attempted and any failure is caught and logged (the function returns
normally in every case, which is the try/except of the source), with
lastsave refreshed afterwards either way. Below the throttle nothing
happens. -/
def TaskDB.save (db : TaskDB) (writeable : Bool) (savefreq now : Nat)
    (fs : FS) (force : Bool) : SaveResult :=
  if elapsedMin savefreq now db.lastsave > savefreq ∨ force = true then
    if !writeable then
      ⟨{ db with lastsave := some now }, fs, false⟩
    else
      let r := dumpTry fs db.dbpath ⟨db.entities, db.uuids⟩
      ⟨{ db with lastsave := some now }, r.1, r.2⟩
  else
    ⟨db, fs, false⟩

/-- TaskDB.load (lines 296-309): when the file exists install its
entities and uuids verbatim, replacing the in-memory maps; a missing
file leaves the state alone; a corrupt file makes json.load raise,
which load does not catch. -/
def TaskDB.load (db : TaskDB) (fs : FS) : Except String TaskDB :=
  match alookup db.dbpath fs.files with
  | Option.none => Except.ok db
  | some (DiskFile.good d) => Except.ok { db with entities := d.entities, uuids := d.uuids }
  | some DiskFile.corrupt => Except.error "ValueError: invalid JSON"

/-- TaskDB.__init__ (lines 207-220) reduced to the state it builds:
empty maps, the given dbpath, lastsave None, then an immediate
load(). -/
def taskDBNew (fs : FS) (dbpath : String) : Except String TaskDB :=
  TaskDB.load ⟨[], [], dbpath, Option.none⟩ fs

/-- Result of cleanup: updated filesystem and databases, the dbnames
reported as successful saves, and the dbnames collected as failures
with their tracebacks. -/
structure CleanupResult where
  fs : FS
  dbs : List ((String × String) × TaskDB)
  success : List (String × String)
  failed : List ((String × String) × String)

/-- cleanup (database.py, lines 75-96): force-save every open TaskDB,
collecting successes and failures separately. TaskDB.save catches
every persistence error internally and returns normally, so the
except branch of cleanup never fires for a failed disk write: every
database lands in the success list and the failed collection stays
empty. -/
def cleanup (writeable : Bool) (savefreq now : Nat) (fs : FS)
    (dbs : List ((String × String) × TaskDB)) : CleanupResult :=
  let step := fun (acc : CleanupResult) (p : (String × String) × TaskDB) =>
    let r := TaskDB.save p.2 writeable savefreq now acc.fs true
    ⟨r.fs, acc.dbs ++ [(p.1, r.db)], acc.success ++ [p.1], acc.failed⟩
  dbs.foldl step ⟨fs, [], [], []⟩

/-- One session-level operation against a TaskDB: a record call or a
save call (with its wall-clock time and force flag). -/
inductive DBOp where
  | record (ekey : String) (entry : PyVal)
  | save (now : Nat) (force : Bool)

/-- Session state threaded through a sequence of operations. -/
structure SessionSt where
  fs : FS
  db : TaskDB

def runOp (writeable : Bool) (guuids : List (String × Instance))
    (describeF : Instance → PyVal) (savefreq : Nat) (s : SessionSt) (op : DBOp) :
    SessionSt :=
  match op with
  | DBOp.record ekey entry =>
    { s with db := (TaskDB.record s.db guuids describeF ekey entry).1 }
  | DBOp.save now force =>
    let r := TaskDB.save s.db writeable savefreq now s.fs force
    ⟨r.fs, r.db⟩

def runOps (writeable : Bool) (guuids : List (String × Instance))
    (describeF : Instance → PyVal) (savefreq : Nat) (s : SessionSt)
    (ops : List DBOp) : SessionSt :=
  ops.foldl (runOp writeable guuids describeF savefreq) s

/-- Folding record over a list of entries under one key. -/
def recordAll (db : TaskDB) (guuids : List (String × Instance))
    (describeF : Instance → PyVal) (k : String) (es : List PyVal) : TaskDB :=
  es.foldl (fun d e => (TaskDB.record d guuids describeF k e).1) db

/-- Well-formedness of the tracker state: every registered instance
carries the id it is keyed under and an identity drawn from the part
of the fresh-identity supply already consumed, and instances
registered under distinct ids have distinct identities. This is the
invariant the uuid4 supply maintains (two uuid4 draws never
collide). -/
def TrackInv (gen : Nat → String) (st : TrackState) : Prop :=
  (∀ p ∈ st.oids, p.2.pid = p.1 ∧ ∃ i, i < st.counter ∧ p.2.uuid = gen i)
  ∧ ∀ p ∈ st.oids, ∀ q ∈ st.oids, p.1 ≠ q.1 → p.2.uuid ≠ q.2.uuid

/-! Concrete fixtures used by the scenario evaluations below. -/

/-- A concrete fresh-identity supply for the tracking scenarios. -/
def c2gen : Nat → String := fun n => String.mk (List.replicate n 'a')

/-- Two distinct mutable objects, identified by their ids. -/
def c2A : PyObj := ⟨1, PyObjVal.other⟩

def c2B : PyObj := ⟨2, PyObjVal.other⟩

def c2st0 : TrackState := ⟨[], [], 0⟩

def c2iA : Instance := ⟨1, "", c2A⟩

def c2st1 : TrackState := ⟨[(1, c2iA)], [("", c2iA)], 1⟩

def c2iB : Instance := ⟨2, "a", c2B⟩

def c2st2 : TrackState := ⟨[(1, c2iA), (2, c2iB)], [("", c2iA), ("a", c2iB)], 2⟩

/-- A durable identity string in the dashed form produced by
str(uuid4()). -/
def c6uuidStr : String := "00000000-0000-4000-8000-000000000000"

/-- A tracked instance registered in the process-wide uuids index
under its identity string, as tracker leaves it. -/
def c6inst : Instance := ⟨5, c6uuidStr, ⟨5, PyObjVal.other⟩⟩

def c6guuids : List (String × Instance) := [(c6uuidStr, c6inst)]

/-- An entry whose only positional argument is the identity string of
the tracked instance above, with no return value. -/
def c6entry : PyVal :=
  PyVal.dict [("returns", PyVal.none),
    ("args", PyVal.dict [("__", PyVal.list [PyVal.str c6uuidStr])])]

def c6db : TaskDB := ⟨[], [], "/db/p.t.json", Option.none⟩

/-- The 5-element integer list of the specification scenario. -/
def c7listObj : PyObj :=
  ⟨7, PyObjVal.container CKind.list
    [PyObjVal.prim (Prim.int 1), PyObjVal.prim (Prim.int 2), PyObjVal.prim (Prim.int 3),
     PyObjVal.prim (Prim.int 4), PyObjVal.prim (Prim.int 5)]⟩

/-- The empty tuple of the specification scenario. -/
def c7tupObj : PyObj := ⟨8, PyObjVal.container CKind.tuple []⟩

def c7gen : Nat → String := fun _ => ""

def c7st : TrackState := ⟨[], [], 0⟩

/-- Two task databases for the cleanup scenario: the first on a
writable path, the second on an unwritable one. -/
def c9db1 : TaskDB := ⟨[("f", [PyVal.int 1])], [], "/db/a.t1.json", Option.none⟩

def c9db2 : TaskDB := ⟨[("g", [PyVal.int 2])], [], "/db/a.t2.json", Option.none⟩

def c9fs : FS := ⟨[], ["/db/a.t2.json"]⟩

def c9dbs : List ((String × String) × TaskDB) :=
  [(("a", "t1"), c9db1), (("a", "t2"), c9db2)]

/-! Association-list facts. -/

theorem alookup_append {α β : Type} [DecidableEq α] (k : α) (l m : List (α × β)) :
    alookup k (l ++ m) = (alookup k l).orElse (fun _ => alookup k m) := by
  induction l with
  | nil => simp [alookup]
  | cons p ps ih =>
    by_cases hp : p.1 = k
    · simp [alookup, hp, Option.orElse]
    · simpa [alookup, hp] using ih

theorem alookup_append_left {α β : Type} [DecidableEq α] (k : α) (l m : List (α × β))
    (h : alookup k l = Option.none) : alookup k (l ++ m) = alookup k m := by
  simp [alookup_append, h, Option.orElse]

theorem alookup_mem {α β : Type} [DecidableEq α] (k : α) (v : β) (l : List (α × β))
    (h : alookup k l = some v) : (k, v) ∈ l := by
  induction l with
  | nil => simp [alookup] at h
  | cons p ps ih =>
    by_cases hp : p.1 = k
    · simp only [alookup, if_pos hp] at h
      cases h
      cases p
      cases hp
      exact List.mem_cons_self _ _
    · simp only [alookup, if_neg hp] at h
      exact List.mem_cons_of_mem _ (ih h)

theorem alookup_map_kv {β : Type} (l : List (String × β)) (k : String) (g : β → β)
    (k' : String) :
    alookup k' (l.map (fun p => if p.1 = k then (p.1, g p.2) else p)) =
      if k' = k then (alookup k l).map g else alookup k' l := by
  induction l with
  | nil => cases hk : decide (k' = k) <;> simp_all [alookup]
  | cons p ps ih =>
    have hfst : ((if p.1 = k then (p.1, g p.2) else p) : String × β).1 = p.1 := by
      split <;> rfl
    have hsnd : ((if p.1 = k then (p.1, g p.2) else p) : String × β).2
        = if p.1 = k then g p.2 else p.2 := by
      split <;> simp_all
    simp only [List.map_cons, alookup, hfst, hsnd]
    by_cases hpk' : p.1 = k'
    · rw [if_pos hpk']
      by_cases hpk : p.1 = k
      · have hkk : k' = k := by rw [← hpk', hpk]
        rw [if_pos hpk, if_pos hkk]
        simp [alookup, hpk]
      · have hkk : ¬ k' = k := fun hc => hpk (hpk'.symm ▸ hc ▸ rfl)
        rw [if_neg hpk, if_neg hkk]
        simp [alookup, hpk']
    · rw [if_neg hpk', ih]
      by_cases hkk : k' = k
      · have hpk : ¬ p.1 = k := fun hc => hpk' (hc.trans hkk.symm)
        rw [if_pos hkk, if_pos hkk]
        simp [alookup, hpk]
      · rw [if_neg hkk, if_neg hkk]
        simp [alookup, hpk']

/-! Facts about the entities update of record. -/

theorem addEntry_alookup (es : List (String × List PyVal)) (k : String) (e : PyVal)
    (k' : String) :
    alookup k' (addEntry es k e) =
      if k' = k then some ((alookup k es).getD [] ++ [e]) else alookup k' es := by
  unfold addEntry
  cases h : alookup k es with
  | none =>
    simp only [h, Option.isSome_none, Bool.false_eq_true, if_false]
    by_cases hk : k' = k
    · subst hk
      rw [alookup_append_left _ _ _ h, if_pos rfl]
      simp [alookup]
    · rw [alookup_append, if_neg hk]
      cases h2 : alookup k' es <;>
        simp [Option.orElse, alookup, Ne.symm hk, h2]
  | some l0 =>
    simp only [h, Option.isSome_some, if_true]
    rw [alookup_map_kv es k (fun l2 => l2 ++ [e]) k']
    by_cases hk : k' = k
    · subst hk
      simp [h]
    · simp [hk]

theorem alookup_setFile (files : List (String × DiskFile)) (path : String) (v : DiskFile) :
    alookup path (setFile files path v) = some v := by
  unfold setFile
  cases h : alookup path files with
  | none =>
    simp only [h, Option.isSome_none, Bool.false_eq_true, if_false]
    rw [alookup_append_left _ _ _ h]
    simp [alookup]
  | some d0 =>
    simp only [h, Option.isSome_some, if_true]
    rw [alookup_map_kv files path (fun _ => v) path]
    simp [h]

/-! The uuid-scanning phase only ever touches the uuids map. -/

theorem log_uuid_entities (db : TaskDB) (g : List (String × Instance))
    (f : Instance → PyVal) (uid : PyVal) :
    (TaskDB.log_uuid db g f uid).entities = db.entities := by
  cases uid <;> simp only [TaskDB.log_uuid]
  split
  · split <;> rfl
  · rfl

theorem log_uuid_dbpath (db : TaskDB) (g : List (String × Instance))
    (f : Instance → PyVal) (uid : PyVal) :
    (TaskDB.log_uuid db g f uid).dbpath = db.dbpath := by
  cases uid <;> simp only [TaskDB.log_uuid]
  split
  · split <;> rfl
  · rfl

theorem log_uuid_lastsave (db : TaskDB) (g : List (String × Instance))
    (f : Instance → PyVal) (uid : PyVal) :
    (TaskDB.log_uuid db g f uid).lastsave = db.lastsave := by
  cases uid <;> simp only [TaskDB.log_uuid]
  split
  · split <;> rfl
  · rfl

theorem scanArg_entities (d : TaskDB) (g : List (String × Instance))
    (f : Instance → PyVal) (v : PyVal) :
    (scanArg d g f v).entities = d.entities := by
  cases v <;> simp only [scanArg]
  split
  · rw [log_uuid_entities]
  · rfl

theorem foldl_entities {α : Type} (step : TaskDB → α → TaskDB)
    (h : ∀ d a, (step d a).entities = d.entities) :
    ∀ (l : List α) (d : TaskDB), (l.foldl step d).entities = d.entities := by
  intro l
  induction l with
  | nil => intro d; rfl
  | cons a as ih => intro d; rw [List.foldl_cons, ih, h]

theorem retLog_entities (g : List (String × Instance)) (f : Instance → PyVal)
    (ret : PyVal) (db1 : TaskDB) :
    (retLog db1 g f ret).entities = db1.entities := by
  unfold retLog
  cases ret <;> first | rfl | rw [log_uuid_entities]

/-! Equation lemmas for the scan chain, keyed by the relevant dict
lookups. -/

theorem recScanPos_eq_none (db2 : TaskDB) (g : List (String × Instance))
    (f : Instance → PyVal) (akvs : List (String × PyVal))
    (h : alookup "__" akvs = Option.none) :
    recScanPos db2 g f akvs = (db2, some PyErr.keyError) := by
  unfold recScanPos
  rw [h]

theorem recScanPos_eq_list (db2 : TaskDB) (g : List (String × Instance))
    (f : Instance → PyVal) (akvs : List (String × PyVal)) (largs : List PyVal)
    (h : alookup "__" akvs = some (PyVal.list largs)) :
    recScanPos db2 g f akvs =
      (akvs.foldl (fun d kv => if kv.1 = "__" then d else scanArg d g f kv.2)
        (largs.foldl (fun d larg => scanArg d g f larg) db2), Option.none) := by
  unfold recScanPos
  rw [h]

theorem recScanArgs_eq_none (db2 : TaskDB) (g : List (String × Instance))
    (f : Instance → PyVal) (kvs : List (String × PyVal))
    (h : alookup "args" kvs = Option.none) :
    recScanArgs db2 g f kvs = (db2, some PyErr.keyError) := by
  unfold recScanArgs
  rw [h]

theorem recScanArgs_eq_dict (db2 : TaskDB) (g : List (String × Instance))
    (f : Instance → PyVal) (kvs akvs : List (String × PyVal))
    (h : alookup "args" kvs = some (PyVal.dict akvs)) :
    recScanArgs db2 g f kvs = recScanPos db2 g f akvs := by
  unfold recScanArgs
  rw [h]

theorem recScanDict_eq_none (db1 : TaskDB) (g : List (String × Instance))
    (f : Instance → PyVal) (kvs : List (String × PyVal))
    (h : alookup "returns" kvs = Option.none) :
    recScanDict db1 g f kvs = (db1, some PyErr.keyError) := by
  unfold recScanDict
  rw [h]

theorem recScanDict_eq_some (db1 : TaskDB) (g : List (String × Instance))
    (f : Instance → PyVal) (kvs : List (String × PyVal)) (ret : PyVal)
    (h : alookup "returns" kvs = some ret) :
    recScanDict db1 g f kvs = recScanArgs (retLog db1 g f ret) g f kvs := by
  unfold recScanDict
  rw [h]

theorem recScanPos_entities (g : List (String × Instance)) (f : Instance → PyVal)
    (akvs : List (String × PyVal)) (db2 : TaskDB) :
    ((recScanPos db2 g f akvs).1).entities = db2.entities := by
  have hkw : ∀ (d : TaskDB),
      ((akvs.foldl (fun d0 kv => if kv.1 = "__" then d0 else scanArg d0 g f kv.2) d).entities)
        = d.entities :=
    fun d => foldl_entities _ (by intro d0 kv; split <;> first | rfl | rw [scanArg_entities]) akvs d
  cases h : alookup "__" akvs with
  | none => rw [recScanPos_eq_none db2 g f akvs h]
  | some posv =>
    unfold recScanPos
    rw [h]
    cases posv <;> try rfl
    · rename_i s
      show (List.foldl _ (List.foldl _ db2 s.data) akvs).entities = db2.entities
      rw [hkw, foldl_entities _ (by intro d a; rw [scanArg_entities])]
    · rename_i largs
      show (List.foldl _ (List.foldl _ db2 largs) akvs).entities = db2.entities
      rw [hkw, foldl_entities _ (by intro d a; rw [scanArg_entities])]
    · rename_i dkvs
      show (List.foldl _ (List.foldl _ db2 dkvs) akvs).entities = db2.entities
      rw [hkw, foldl_entities _ (by intro d a; rw [scanArg_entities])]

theorem recScanArgs_entities (g : List (String × Instance)) (f : Instance → PyVal)
    (kvs : List (String × PyVal)) (db2 : TaskDB) :
    ((recScanArgs db2 g f kvs).1).entities = db2.entities := by
  cases h : alookup "args" kvs with
  | none => rw [recScanArgs_eq_none db2 g f kvs h]
  | some argsv =>
    unfold recScanArgs
    rw [h]
    cases argsv <;> try rfl
    rename_i akvs
    show ((recScanPos db2 g f akvs).1).entities = db2.entities
    exact recScanPos_entities g f akvs db2

theorem recScanDict_entities (g : List (String × Instance)) (f : Instance → PyVal)
    (kvs : List (String × PyVal)) (db1 : TaskDB) :
    ((recScanDict db1 g f kvs).1).entities = db1.entities := by
  cases h : alookup "returns" kvs with
  | none => rw [recScanDict_eq_none db1 g f kvs h]
  | some ret =>
    rw [recScanDict_eq_some db1 g f kvs ret h, recScanArgs_entities, retLog_entities]

theorem recScan_entities (g : List (String × Instance)) (f : Instance → PyVal)
    (entry : PyVal) (db1 : TaskDB) :
    ((recScan db1 g f entry).1).entities = db1.entities := by
  unfold recScan
  cases entry <;> try rfl
  rename_i kvs
  exact recScanDict_entities g f kvs db1

theorem record_entities (db : TaskDB) (g : List (String × Instance))
    (f : Instance → PyVal) (ekey : String) (entry : PyVal) :
    ((TaskDB.record db g f ekey entry).1).entities = addEntry db.entities ekey entry := by
  unfold TaskDB.record
  rw [recScan_entities]

theorem record_alookup (g : List (String × Instance)) (f : Instance → PyVal)
    (d : TaskDB) (k₁ k₂ : String) (e : PyVal) :
    alookup k₂ ((TaskDB.record d g f k₁ e).1).entities
      = if k₂ = k₁ then some ((alookup k₁ d.entities).getD [] ++ [e])
        else alookup k₂ d.entities := by
  rw [record_entities, addEntry_alookup]

theorem recordAll_alookup_some (g : List (String × Instance)) (f : Instance → PyVal)
    (k : String) :
    ∀ (es : List PyVal) (db : TaskDB) (l : List PyVal),
      alookup k db.entities = some l →
      alookup k (recordAll db g f k es).entities = some (l ++ es) := by
  intro es
  induction es with
  | nil => intro db l h; simpa [recordAll] using h
  | cons e es ih =>
    intro db l h
    have h1 : alookup k ((TaskDB.record db g f k e).1).entities = some (l ++ [e]) := by
      rw [record_alookup, if_pos rfl, h]
      rfl
    have h2 := ih ((TaskDB.record db g f k e).1) (l ++ [e]) h1
    simpa [recordAll, List.append_assoc] using h2

/-- C1: append-only log. Starting from a database where the key k is
unseen, recording the entries e_1, ..., e_N under k leaves
entities[k] exactly [e_1, ..., e_N] in call order; and a single
record call only appends its entry at the end of the list of its
own key, leaving the list of every other key untouched. -/
theorem c1_append_only (guuids : List (String × Instance)) (describeF : Instance → PyVal)
    (db : TaskDB) (k : String) (es : List PyVal)
    (hfresh : alookup k db.entities = Option.none) :
    (es ≠ [] → alookup k (recordAll db guuids describeF k es).entities = some es)
    ∧ ∀ (d : TaskDB) (k₁ k₂ : String) (e : PyVal),
        alookup k₂ ((TaskDB.record d guuids describeF k₁ e).1).entities
          = if k₂ = k₁ then some ((alookup k₁ d.entities).getD [] ++ [e])
            else alookup k₂ d.entities := by
  constructor
  · intro hne
    cases es with
    | nil => exact absurd rfl hne
    | cons e es =>
      have h1 : alookup k ((TaskDB.record db guuids describeF k e).1).entities
          = some [e] := by
        rw [record_alookup, if_pos rfl, hfresh]
        rfl
      have h2 := recordAll_alookup_some guuids describeF k es
        ((TaskDB.record db guuids describeF k e).1) [e] h1
      simpa [recordAll] using h2
  · intro d k₁ k₂ e
    exact record_alookup guuids describeF d k₁ k₂ e

/-- Witness for C1: two entries recorded under a fresh key land as a
two-element list in call order. -/
theorem c1_append_only_witness :
    alookup "f" (recordAll ⟨[], [], "p", Option.none⟩ [] (fun _ => PyVal.none) "f"
      [PyVal.int 1, PyVal.int 2]).entities = some [PyVal.int 1, PyVal.int 2] :=
  (c1_append_only [] (fun _ => PyVal.none) ⟨[], [], "p", Option.none⟩ "f"
    [PyVal.int 1, PyVal.int 2] rfl).1 (by simp)

/-- C10: record is partial and non-atomic on malformed entries. For an
entry dict lacking the key returns, or lacking args, or whose args
dict lacks the reserved positional key, record raises KeyError, and
the malformed entry is nevertheless left appended at the end of
entities[ekey], because the append precedes the key reads. -/
theorem c10_record_partial (guuids : List (String × Instance))
    (describeF : Instance → PyVal) (db : TaskDB) (ekey : String)
    (kvs : List (String × PyVal))
    (h : alookup "returns" kvs = Option.none
      ∨ alookup "args" kvs = Option.none
      ∨ ∃ akvs, alookup "args" kvs = some (PyVal.dict akvs)
          ∧ alookup "__" akvs = Option.none) :
    (TaskDB.record db guuids describeF ekey (PyVal.dict kvs)).2 = some PyErr.keyError
    ∧ alookup ekey ((TaskDB.record db guuids describeF ekey (PyVal.dict kvs)).1).entities
        = some ((alookup ekey db.entities).getD [] ++ [PyVal.dict kvs]) := by
  constructor
  · show (recScanDict _ guuids describeF kvs).2 = some PyErr.keyError
    cases hr : alookup "returns" kvs with
    | none => rw [recScanDict_eq_none _ guuids describeF kvs hr]
    | some ret =>
      rw [recScanDict_eq_some _ guuids describeF kvs ret hr]
      rcases h with h | h | ⟨akvs, h1, h2⟩
      · rw [hr] at h; cases h
      · rw [recScanArgs_eq_none _ guuids describeF kvs h]
      · rw [recScanArgs_eq_dict _ guuids describeF kvs akvs h1,
            recScanPos_eq_none _ guuids describeF akvs h2]
  · rw [record_alookup, if_pos rfl]

/-- Witness for C10: the empty dict lacks returns; record raises
KeyError yet the entry is appended. -/
theorem c10_record_partial_witness :
    (TaskDB.record ⟨[], [], "p", Option.none⟩ [] (fun _ => PyVal.none) "f"
      (PyVal.dict [])).2 = some PyErr.keyError
    ∧ alookup "f" ((TaskDB.record ⟨[], [], "p", Option.none⟩ [] (fun _ => PyVal.none) "f"
      (PyVal.dict [])).1).entities = some [PyVal.dict []] :=
  c10_record_partial [] (fun _ => PyVal.none) ⟨[], [], "p", Option.none⟩ "f" []
    (Or.inl rfl)

/-! Facts about save, dumpTry and the throttle gate. -/

theorem dumpTry_ok (fs : FS) (path : String) (d : DiskDB)
    (hw : path ∉ fs.unwritable) (hj : jsonableDB d = true) :
    dumpTry fs path d = ({ fs with files := setFile fs.files path (DiskFile.good d) }, true) := by
  unfold dumpTry
  rw [if_neg hw, if_pos hj]

theorem elapsed_gt_iff (savefreq now : Nat) (last : Option Nat) :
    elapsedMin savefreq now last > savefreq ↔
      (last = Option.none ∨ ∃ t, last = some t ∧ (now - t) / 60 > savefreq) := by
  cases last with
  | none => simp [elapsedMin, Nat.lt_succ_self]
  | some t => simp [elapsedMin]

theorem save_gate_closed (db : TaskDB) (w : Bool) (savefreq now : Nat) (fs : FS)
    (force : Bool)
    (hg : ¬(elapsedMin savefreq now db.lastsave > savefreq ∨ force = true)) :
    TaskDB.save db w savefreq now fs force = ⟨db, fs, false⟩ := by
  unfold TaskDB.save
  rw [if_neg hg]

theorem save_gate_open_ro (db : TaskDB) (savefreq now : Nat) (fs : FS) (force : Bool)
    (hg : elapsedMin savefreq now db.lastsave > savefreq ∨ force = true) :
    TaskDB.save db false savefreq now fs force
      = ⟨{ db with lastsave := some now }, fs, false⟩ := by
  unfold TaskDB.save
  rw [if_pos hg]
  rfl

theorem save_gate_open_rw (db : TaskDB) (savefreq now : Nat) (fs : FS) (force : Bool)
    (hg : elapsedMin savefreq now db.lastsave > savefreq ∨ force = true) :
    TaskDB.save db true savefreq now fs force
      = ⟨{ db with lastsave := some now },
         (dumpTry fs db.dbpath ⟨db.entities, db.uuids⟩).1,
         (dumpTry fs db.dbpath ⟨db.entities, db.uuids⟩).2⟩ := by
  unfold TaskDB.save
  rw [if_pos hg]
  rfl

/-- C4: save throttle. With the session writeable, the path writable
and the state serializable: a non-forced save writes exactly when the
computed elapsed minutes exceed savefreq or lastsave is unset; a
second non-forced save within savefreq minutes of a save that wrote
does not write (so the pair produces exactly one write); a fresh
database (lastsave unset) does write; and a forced save always
writes. -/
theorem c4_save_throttle (savefreq : Nat) (db : TaskDB) (fs : FS) (now now2 : Nat)
    (hw : db.dbpath ∉ fs.unwritable)
    (hj : jsonableDB ⟨db.entities, db.uuids⟩ = true) :
    ((TaskDB.save db true savefreq now fs false).wrote = true ↔
      (db.lastsave = Option.none ∨ ∃ t, db.lastsave = some t ∧ (now - t) / 60 > savefreq))
    ∧ ((TaskDB.save db true savefreq now fs false).wrote = true →
        now2 - now ≤ 60 * savefreq →
        (TaskDB.save (TaskDB.save db true savefreq now fs false).db true savefreq now2
          (TaskDB.save db true savefreq now fs false).fs false).wrote = false)
    ∧ (db.lastsave = Option.none →
        (TaskDB.save db true savefreq now fs false).wrote = true)
    ∧ (TaskDB.save db true savefreq now fs true).wrote = true := by
  have hopen : ∀ (fs' : FS) (force : Bool)
      (hg : elapsedMin savefreq now db.lastsave > savefreq ∨ force = true),
      db.dbpath ∉ fs'.unwritable →
      (TaskDB.save db true savefreq now fs' force).wrote = true := by
    intro fs' force hg hw'
    rw [save_gate_open_rw db savefreq now fs' force hg, dumpTry_ok fs' db.dbpath _ hw' hj]
  refine ⟨?_, ?_, ?_, hopen fs true (Or.inr rfl) hw⟩
  · constructor
    · intro hwrote
      by_cases hg : elapsedMin savefreq now db.lastsave > savefreq
      · exact (elapsed_gt_iff savefreq now db.lastsave).1 hg
      · rw [save_gate_closed db true savefreq now fs false
          (by rintro (h | h); exact hg h; cases h)] at hwrote
        cases hwrote
    · intro hrhs
      exact hopen fs false (Or.inl ((elapsed_gt_iff savefreq now db.lastsave).2 hrhs)) hw
  · intro hwrote hle
    have hg : elapsedMin savefreq now db.lastsave > savefreq ∨ (false : Bool) = true := by
      by_cases hg : elapsedMin savefreq now db.lastsave > savefreq
      · exact Or.inl hg
      · rw [save_gate_closed db true savefreq now fs false
          (by rintro (h | h); exact hg h; cases h)] at hwrote
        cases hwrote
    rw [save_gate_open_rw db savefreq now fs false hg]
    have hel : elapsedMin savefreq now2 (some now) ≤ savefreq := by
      show (now2 - now) / 60 ≤ savefreq
      calc (now2 - now) / 60 ≤ (60 * savefreq) / 60 := Nat.div_le_div_right hle
        _ = savefreq := by rw [Nat.mul_div_cancel_left savefreq (by norm_num)]
    have hng : ¬(elapsedMin savefreq now2
        (({ db with lastsave := some now } : TaskDB).lastsave) > savefreq
        ∨ (false : Bool) = true) := by
      rintro (h | h)
      · exact absurd h (Nat.not_lt.2 hel)
      · cases h
    show (TaskDB.save { db with lastsave := some now } true savefreq now2
      (dumpTry fs db.dbpath ⟨db.entities, db.uuids⟩).1 false).wrote = false
    rw [save_gate_closed _ true savefreq now2 _ false hng]
  · intro hnone
    refine hopen fs false (Or.inl ?_) hw
    rw [hnone]
    exact Nat.lt_succ_self savefreq

/-- Witness for C4: a fresh database writes on the first non-forced
save and on a forced save. -/
theorem c4_save_throttle_witness :
    (TaskDB.save ⟨[("f", [PyVal.int 1])], [], "/db/p.t.json", Option.none⟩ true 2 100
      ⟨[], []⟩ false).wrote = true
    ∧ (TaskDB.save ⟨[("f", [PyVal.int 1])], [], "/db/p.t.json", Option.none⟩ true 2 100
      ⟨[], []⟩ true).wrote = true := by
  have h := c4_save_throttle 2 ⟨[("f", [PyVal.int 1])], [], "/db/p.t.json", Option.none⟩
    ⟨[], []⟩ 100 150 (by simp) rfl
  exact ⟨h.2.2.1 rfl, h.2.2.2⟩

/-- C3: save/load round trip. For any database state whose maps are
JSON-serializable and whose path is writable, a forced save followed
by constructing a fresh TaskDB on the same path (whose constructor
loads the file) reproduces the entities and uuids maps exactly. -/
theorem c3_round_trip (savefreq now : Nat) (fs : FS) (db : TaskDB)
    (hw : db.dbpath ∉ fs.unwritable)
    (hj : jsonableDB ⟨db.entities, db.uuids⟩ = true) :
    ∃ db2 : TaskDB,
      taskDBNew ((TaskDB.save db true savefreq now fs true).fs) db.dbpath = Except.ok db2
      ∧ db2.entities = db.entities ∧ db2.uuids = db.uuids := by
  rw [save_gate_open_rw db savefreq now fs true (Or.inr rfl),
      dumpTry_ok fs db.dbpath _ hw hj]
  refine ⟨⟨db.entities, db.uuids, db.dbpath, Option.none⟩, ?_, rfl, rfl⟩
  unfold taskDBNew TaskDB.load
  rw [alookup_setFile]

/-- Witness for C3: a concrete state survives the round trip. -/
theorem c3_round_trip_witness :
    ∃ db2 : TaskDB,
      taskDBNew ((TaskDB.save ⟨[("f", [PyVal.int 1])], [("u", PyVal.str "d")],
        "/db/p.t.json", Option.none⟩ true 2 100 ⟨[], []⟩ true).fs) "/db/p.t.json"
        = Except.ok db2
      ∧ db2.entities = [("f", [PyVal.int 1])] ∧ db2.uuids = [("u", PyVal.str "d")] :=
  c3_round_trip 2 100 ⟨[], []⟩
    ⟨[("f", [PyVal.int 1])], [("u", PyVal.str "d")], "/db/p.t.json", Option.none⟩
    (by simp) rfl

/-- C8: persistence-failure containment. When the write attempted by
save fails, save still returns normally (it is a total function whose
error branch mirrors the except handler of the source), the in-memory
entities and uuids maps are exactly what they were, nothing was
written, lastsave is still refreshed, and a later forced save on a
healthy filesystem writes normally. -/
theorem c8_save_failure_contained (savefreq now now2 : Nat) (fs fs2 : FS) (db : TaskDB)
    (force : Bool)
    (hfail : (dumpTry fs db.dbpath ⟨db.entities, db.uuids⟩).2 = false)
    (hgate : elapsedMin savefreq now db.lastsave > savefreq ∨ force = true) :
    ((TaskDB.save db true savefreq now fs force).db).entities = db.entities
    ∧ ((TaskDB.save db true savefreq now fs force).db).uuids = db.uuids
    ∧ (TaskDB.save db true savefreq now fs force).wrote = false
    ∧ ((TaskDB.save db true savefreq now fs force).db).lastsave = some now
    ∧ (db.dbpath ∉ fs2.unwritable → jsonableDB ⟨db.entities, db.uuids⟩ = true →
        (TaskDB.save (TaskDB.save db true savefreq now fs force).db true savefreq now2
          fs2 true).wrote = true) := by
  rw [save_gate_open_rw db savefreq now fs force hgate]
  refine ⟨rfl, rfl, hfail, rfl, ?_⟩
  intro hw2 hj2
  show (TaskDB.save { db with lastsave := some now } true savefreq now2 fs2 true).wrote = true
  rw [save_gate_open_rw _ savefreq now2 fs2 true (Or.inr rfl)]
  show (dumpTry fs2 db.dbpath ⟨db.entities, db.uuids⟩).2 = true
  rw [dumpTry_ok fs2 db.dbpath _ hw2 hj2]

/-- Witness for C8: an unwritable path makes the forced save fail
silently, preserving the in-memory maps; a later forced save on a
writable filesystem writes. -/
theorem c8_save_failure_contained_witness :
    ((TaskDB.save ⟨[("f", [PyVal.int 1])], [], "/db/p.t.json", Option.none⟩ true 2 100
      ⟨[], ["/db/p.t.json"]⟩ true).db).entities = [("f", [PyVal.int 1])]
    ∧ (TaskDB.save ⟨[("f", [PyVal.int 1])], [], "/db/p.t.json", Option.none⟩ true 2 100
      ⟨[], ["/db/p.t.json"]⟩ true).wrote = false
    ∧ (TaskDB.save (TaskDB.save ⟨[("f", [PyVal.int 1])], [], "/db/p.t.json", Option.none⟩
        true 2 100 ⟨[], ["/db/p.t.json"]⟩ true).db true 2 300 ⟨[], []⟩ true).wrote = true := by
  have h := c8_save_failure_contained 2 100 300 ⟨[], ["/db/p.t.json"]⟩ ⟨[], []⟩
    ⟨[("f", [PyVal.int 1])], [], "/db/p.t.json", Option.none⟩ true (by rfl) (Or.inr rfl)
  exact ⟨h.1, h.2.2.1, h.2.2.2.2 (by simp) rfl⟩

/-! Facts for the writable-gating claim: the database evolution is
independent of the writeable flag and of the filesystem, and a
read-only session never touches the filesystem. -/

theorem save_db_const (db : TaskDB) (w w' : Bool) (savefreq now : Nat) (fs fs' : FS)
    (force : Bool) :
    (TaskDB.save db w savefreq now fs force).db
      = (TaskDB.save db w' savefreq now fs' force).db := by
  unfold TaskDB.save
  by_cases hg : elapsedMin savefreq now db.lastsave > savefreq ∨ force = true
  · rw [if_pos hg, if_pos hg]
    cases w <;> cases w' <;> rfl
  · rw [if_neg hg, if_neg hg]

theorem save_false_fs (db : TaskDB) (savefreq now : Nat) (fs : FS) (force : Bool) :
    (TaskDB.save db false savefreq now fs force).fs = fs := by
  unfold TaskDB.save
  by_cases hg : elapsedMin savefreq now db.lastsave > savefreq ∨ force = true
  · rw [if_pos hg]
    rfl
  · rw [if_neg hg]

theorem runOp_false_fs (g : List (String × Instance)) (f : Instance → PyVal)
    (savefreq : Nat) (s : SessionSt) (op : DBOp) :
    (runOp false g f savefreq s op).fs = s.fs := by
  cases op with
  | record ekey entry => rfl
  | save now force => exact save_false_fs s.db savefreq now s.fs force

theorem runOps_false_fs (g : List (String × Instance)) (f : Instance → PyVal)
    (savefreq : Nat) :
    ∀ (ops : List DBOp) (s : SessionSt), (runOps false g f savefreq s ops).fs = s.fs := by
  intro ops
  induction ops with
  | nil => intro s; rfl
  | cons op ops ih =>
    intro s
    show (runOps false g f savefreq (runOp false g f savefreq s op) ops).fs = s.fs
    rw [ih, runOp_false_fs]

theorem runOp_db_congr (g : List (String × Instance)) (f : Instance → PyVal)
    (savefreq : Nat) (w w' : Bool) (s s' : SessionSt) (op : DBOp)
    (h : s.db = s'.db) :
    (runOp w g f savefreq s op).db = (runOp w' g f savefreq s' op).db := by
  cases op with
  | record ekey entry => show (TaskDB.record s.db g f ekey entry).1
                           = (TaskDB.record s'.db g f ekey entry).1; rw [h]
  | save now force =>
    show (TaskDB.save s.db w savefreq now s.fs force).db
      = (TaskDB.save s'.db w' savefreq now s'.fs force).db
    rw [h]
    exact save_db_const s'.db w w' savefreq now s.fs s'.fs force

theorem runOps_db_congr (g : List (String × Instance)) (f : Instance → PyVal)
    (savefreq : Nat) :
    ∀ (ops : List DBOp) (w w' : Bool) (s s' : SessionSt), s.db = s'.db →
      (runOps w g f savefreq s ops).db = (runOps w' g f savefreq s' ops).db := by
  intro ops
  induction ops with
  | nil => intro w w' s s' h; exact h
  | cons op ops ih =>
    intro w w' s s' h
    show (runOps w g f savefreq (runOp w g f savefreq s op) ops).db
      = (runOps w' g f savefreq (runOp w' g f savefreq s' op) ops).db
    exact ih w w' _ _ (runOp_db_congr g f savefreq w w' s s' op h)

/-- C5: writable gating. With the writeable flag false, any sequence
of record/save operations leaves the filesystem exactly as it was
(zero writes), while the resulting database state, entities and uuids
included, is identical to the state the same sequence produces with
the flag true; and any save that passes the throttle gate still
refreshes lastsave even though the write is skipped. -/
theorem c5_writable_gating (guuids : List (String × Instance))
    (describeF : Instance → PyVal) (savefreq : Nat) (ops : List DBOp)
    (fs fs' : FS) (db : TaskDB) :
    (runOps false guuids describeF savefreq ⟨fs, db⟩ ops).fs = fs
    ∧ (runOps false guuids describeF savefreq ⟨fs, db⟩ ops).db
        = (runOps true guuids describeF savefreq ⟨fs', db⟩ ops).db
    ∧ ∀ (d : TaskDB) (f2 : FS) (now : Nat) (force : Bool),
        elapsedMin savefreq now d.lastsave > savefreq ∨ force = true →
        ((TaskDB.save d false savefreq now f2 force).db).lastsave = some now := by
  refine ⟨runOps_false_fs guuids describeF savefreq ops ⟨fs, db⟩,
    runOps_db_congr guuids describeF savefreq ops false true ⟨fs, db⟩ ⟨fs', db⟩ rfl, ?_⟩
  intro d f2 now force hg
  rw [save_gate_open_ro d savefreq now f2 force hg]

/-- Witness for C5: a record plus a passing save in a read-only
session leave the filesystem untouched, match the database state of
the writeable run, and advance lastsave. -/
theorem c5_writable_gating_witness :
    (runOps false [] (fun _ => PyVal.none) 2
      ⟨⟨[], []⟩, ⟨[], [], "/db/p.t.json", Option.none⟩⟩
      [DBOp.record "f" (PyVal.dict [("returns", PyVal.none),
        ("args", PyVal.dict [("__", PyVal.list [])])]), DBOp.save 100 false]).fs = ⟨[], []⟩
    ∧ (runOps false [] (fun _ => PyVal.none) 2
        ⟨⟨[], []⟩, ⟨[], [], "/db/p.t.json", Option.none⟩⟩
        [DBOp.record "f" (PyVal.dict [("returns", PyVal.none),
          ("args", PyVal.dict [("__", PyVal.list [])])]), DBOp.save 100 false]).db
      = (runOps true [] (fun _ => PyVal.none) 2
          ⟨⟨[], []⟩, ⟨[], [], "/db/p.t.json", Option.none⟩⟩
          [DBOp.record "f" (PyVal.dict [("returns", PyVal.none),
            ("args", PyVal.dict [("__", PyVal.list [])])]), DBOp.save 100 false]).db
    ∧ ((TaskDB.save ⟨[], [], "/db/p.t.json", Option.none⟩ false 2 100 ⟨[], []⟩
        false).db).lastsave = some 100 := by
  have h := c5_writable_gating [] (fun _ => PyVal.none) 2
    [DBOp.record "f" (PyVal.dict [("returns", PyVal.none),
      ("args", PyVal.dict [("__", PyVal.list [])])]), DBOp.save 100 false]
    ⟨[], []⟩ ⟨[], []⟩ ⟨[], [], "/db/p.t.json", Option.none⟩
  exact ⟨h.1, h.2.1, h.2.2 ⟨[], [], "/db/p.t.json", Option.none⟩ ⟨[], []⟩ 100 false
    (Or.inl (by decide))⟩

/-- C9 counterexample: cleanup run on two open databases, one of them
on an unwritable path. The healthy database is saved and reported,
but the broken one is ALSO reported as a success: the failed
collection of cleanup is empty, because TaskDB.save catches the write
error internally and returns normally, so the except branch in
cleanup never fires. This contradicts the claim that the broken
database is reported as a failure with a non-empty error
description. -/
theorem c9_cleanup_counterexample :
    (cleanup true 2 100 c9fs c9dbs).failed = []
    ∧ (cleanup true 2 100 c9fs c9dbs).success = [("a", "t1"), ("a", "t2")]
    ∧ alookup "/db/a.t1.json" (cleanup true 2 100 c9fs c9dbs).fs.files
        = some (DiskFile.good ⟨[("f", [PyVal.int 1])], []⟩)
    ∧ alookup "/db/a.t2.json" (cleanup true 2 100 c9fs c9dbs).fs.files = Option.none :=
  ⟨rfl, rfl, rfl, rfl⟩

/-- C9 amended: cleanup force-saves every open database, and a write
failure of one database does not prevent the others from being
saved; but every database is reported as a success and the failure
list is always empty, because save swallows persistence errors
before cleanup can see them. -/
theorem c9_cleanup_amended (savefreq now : Nat) (fs : FS) (n1 n2 : String × String)
    (db1 db2 : TaskDB)
    (hw1 : db1.dbpath ∉ fs.unwritable)
    (hj1 : jsonableDB ⟨db1.entities, db1.uuids⟩ = true)
    (hw2 : db2.dbpath ∈ fs.unwritable) :
    (cleanup true savefreq now fs [(n1, db1), (n2, db2)]).success = [n1, n2]
    ∧ (cleanup true savefreq now fs [(n1, db1), (n2, db2)]).failed = []
    ∧ alookup db1.dbpath (cleanup true savefreq now fs [(n1, db1), (n2, db2)]).fs.files
        = some (DiskFile.good ⟨db1.entities, db1.uuids⟩) := by
  have h1 : TaskDB.save db1 true savefreq now fs true
      = ⟨{ db1 with lastsave := some now }, { fs with files := setFile fs.files db1.dbpath (DiskFile.good ⟨db1.entities, db1.uuids⟩) }, true⟩ := by
    rw [save_gate_open_rw db1 savefreq now fs true (Or.inr rfl),
        dumpTry_ok fs db1.dbpath _ hw1 hj1]
  have h2 : ∀ fl, TaskDB.save db2 true savefreq now ⟨fl, fs.unwritable⟩ true
      = ⟨{ db2 with lastsave := some now }, ⟨fl, fs.unwritable⟩, false⟩ := by
    intro fl
    rw [save_gate_open_rw db2 savefreq now ⟨fl, fs.unwritable⟩ true (Or.inr rfl)]
    unfold dumpTry
    rw [if_pos hw2]
  have hcl : cleanup true savefreq now fs [(n1, db1), (n2, db2)]
      = ⟨{ fs with files := setFile fs.files db1.dbpath (DiskFile.good ⟨db1.entities, db1.uuids⟩) }, [(n1, { db1 with lastsave := some now }), (n2, { db2 with lastsave := some now })], [n1, n2], []⟩ := by
    unfold cleanup
    rw [List.foldl_cons, List.foldl_cons, List.foldl_nil]
    simp only [h1]
    rw [h2 (setFile fs.files db1.dbpath (DiskFile.good ⟨db1.entities, db1.uuids⟩))]
    simp
  rw [hcl]
  exact ⟨rfl, rfl, alookup_setFile fs.files db1.dbpath _⟩

/-- Witness for the amended C9 at the concrete two-database input. -/
theorem c9_cleanup_amended_witness :
    (cleanup true 2 100 c9fs c9dbs).success = [("a", "t1"), ("a", "t2")]
    ∧ (cleanup true 2 100 c9fs c9dbs).failed = []
    ∧ alookup "/db/a.t1.json" (cleanup true 2 100 c9fs c9dbs).fs.files
        = some (DiskFile.good ⟨[("f", [PyVal.int 1])], []⟩) :=
  c9_cleanup_amended 2 100 c9fs ("a", "t1") ("a", "t2") c9db1 c9db2
    (by simp [c9fs, c9db1]) rfl (by simp [c9fs, c9db2])

/-- C6: record does not log positional/named argument identities. The
identity string of a live tracked instance appears as the only
positional argument of an entry; the strict parse succeeds, the
instance is present in the process-wide index, record completes
without error, and yet the TaskDB uuids map stays empty, because
record hands _log_uuid the parsed UUID object rather than the
identity string, and a UUID object never equals the string keys of
either index. The final conjunct shows that handing _log_uuid the
string itself, as its docstring specifies, would have stored the
description. -/
theorem c6_arg_identity_not_logged :
    pyUUIDparse c6uuidStr = some "00000000000040008000000000000000"
    ∧ alookup c6uuidStr c6guuids = some c6inst
    ∧ (TaskDB.record c6db c6guuids (fun _ => PyVal.str "desc") "f" c6entry).2
        = Option.none
    ∧ ((TaskDB.record c6db c6guuids (fun _ => PyVal.str "desc") "f" c6entry).1).uuids = []
    ∧ (TaskDB.log_uuid c6db c6guuids (fun _ => PyVal.str "desc")
        (PyVal.str c6uuidStr)).uuids = [(c6uuidStr, PyVal.str "desc")] :=
  ⟨rfl, rfl, rfl, rfl, rfl⟩

/-! The Python 2 comparison used by min/max over semi-tracked
containers is a linear order: numbers below strings, each kind by its
own order. -/

theorem primLt_irrefl (a : Prim) : primLt a a = false := by
  cases a with
  | int n => simp [primLt]
  | str s => simp [primLt]

theorem primLt_trans {a b c : Prim} (h1 : primLt a b = true) (h2 : primLt b c = true) :
    primLt a c = true := by
  cases a with
  | int x =>
    cases b with
    | int y =>
      cases c with
      | int z =>
        simp only [primLt, decide_eq_true_eq] at h1 h2 ⊢
        omega
      | str t => rfl
    | str s =>
      cases c with
      | int z => simp [primLt] at h2
      | str t => rfl
  | str s =>
    cases b with
    | int y => simp [primLt] at h1
    | str t =>
      cases c with
      | int z => simp [primLt] at h2
      | str u =>
        simp only [primLt, decide_eq_true_eq] at h1 h2 ⊢
        exact lt_trans h1 h2

theorem primLt_le_lt {a b c : Prim} (h1 : primLt b a = false) (h2 : primLt b c = true) :
    primLt a c = true := by
  cases b with
  | int y =>
    cases a with
    | int x =>
      cases c with
      | int z =>
        simp only [primLt, decide_eq_true_eq, decide_eq_false_iff_not] at h1 h2 ⊢
        omega
      | str u => rfl
    | str s => simp [primLt] at h1
  | str t =>
    cases a with
    | int x =>
      cases c with
      | int z => simp [primLt] at h2
      | str u => rfl
    | str s =>
      cases c with
      | int z => simp [primLt] at h2
      | str u =>
        simp only [primLt, decide_eq_true_eq, decide_eq_false_iff_not] at h1 h2 ⊢
        exact lt_of_le_of_lt (le_of_not_lt h1) h2

theorem primLt_lt_le {a b c : Prim} (h1 : primLt a b = true) (h2 : primLt c b = false) :
    primLt a c = true := by
  cases b with
  | int y =>
    cases a with
    | int x =>
      cases c with
      | int z =>
        simp only [primLt, decide_eq_true_eq, decide_eq_false_iff_not] at h1 h2 ⊢
        omega
      | str u => rfl
    | str s => simp [primLt] at h1
  | str t =>
    cases a with
    | int x =>
      cases c with
      | int z => simp [primLt] at h2
      | str u => rfl
    | str s =>
      cases c with
      | int z => simp [primLt] at h2
      | str u =>
        simp only [primLt, decide_eq_true_eq, decide_eq_false_iff_not] at h1 h2 ⊢
        exact lt_of_lt_of_le h1 (le_of_not_lt h2)

/-- The left-to-right min scan lands on an element of the scanned
values that no scanned value is strictly below. -/
theorem primsMin_spec : ∀ (ps : List Prim) (m : Prim),
    (primsMin m ps = m ∨ primsMin m ps ∈ ps)
    ∧ ∀ q, (q = m ∨ q ∈ ps) → primLt q (primsMin m ps) = false := by
  intro ps
  induction ps with
  | nil =>
    intro m
    refine ⟨Or.inl rfl, ?_⟩
    rintro q (rfl | hq)
    · exact primLt_irrefl q
    · cases hq
  | cons p tl ih =>
    intro m
    cases hpm : primLt p m with
    | true =>
      have heq : primsMin m (p :: tl) = primsMin p tl := by
        rw [show primsMin m (p :: tl) = primsMin (if primLt p m then p else m) tl from rfl,
            if_pos hpm]
      rcases ih p with ⟨ihmem, ihbound⟩
      rw [heq]
      constructor
      · rcases ihmem with h | h
        · exact Or.inr (by rw [h]; exact List.mem_cons_self p tl)
        · exact Or.inr (List.mem_cons_of_mem p h)
      · rintro q (rfl | hq)
        · cases hmr : primLt q (primsMin p tl) with
          | false => rfl
          | true =>
            have h1 := ihbound p (Or.inl rfl)
            have h2 := primLt_trans hpm hmr
            rw [h1] at h2
            cases h2
        · rcases List.mem_cons.mp hq with rfl | h
          · exact ihbound q (Or.inl rfl)
          · exact ihbound q (Or.inr h)
    | false =>
      have heq : primsMin m (p :: tl) = primsMin m tl := by
        rw [show primsMin m (p :: tl) = primsMin (if primLt p m then p else m) tl from rfl,
            if_neg (by rw [hpm]; exact Bool.false_ne_true)]
      rcases ih m with ⟨ihmem, ihbound⟩
      rw [heq]
      constructor
      · rcases ihmem with h | h
        · exact Or.inl h
        · exact Or.inr (List.mem_cons_of_mem p h)
      · rintro q (rfl | hq)
        · exact ihbound q (Or.inl rfl)
        · rcases List.mem_cons.mp hq with rfl | h
          · cases hpr : primLt q (primsMin m tl) with
            | false => rfl
            | true =>
              have h3 := primLt_le_lt hpm hpr
              have h4 := ihbound m (Or.inl rfl)
              rw [h4] at h3
              cases h3
          · exact ihbound q (Or.inr h)

/-- The left-to-right max scan lands on an element of the scanned
values that is strictly below no scanned value. -/
theorem primsMax_spec : ∀ (ps : List Prim) (m : Prim),
    (primsMax m ps = m ∨ primsMax m ps ∈ ps)
    ∧ ∀ q, (q = m ∨ q ∈ ps) → primLt (primsMax m ps) q = false := by
  intro ps
  induction ps with
  | nil =>
    intro m
    refine ⟨Or.inl rfl, ?_⟩
    rintro q (rfl | hq)
    · exact primLt_irrefl q
    · cases hq
  | cons p tl ih =>
    intro m
    cases hmp : primLt m p with
    | true =>
      have heq : primsMax m (p :: tl) = primsMax p tl := by
        rw [show primsMax m (p :: tl) = primsMax (if primLt m p then p else m) tl from rfl,
            if_pos hmp]
      rcases ih p with ⟨ihmem, ihbound⟩
      rw [heq]
      constructor
      · rcases ihmem with h | h
        · exact Or.inr (by rw [h]; exact List.mem_cons_self p tl)
        · exact Or.inr (List.mem_cons_of_mem p h)
      · rintro q (rfl | hq)
        · cases hrm : primLt (primsMax p tl) q with
          | false => rfl
          | true =>
            have h1 := ihbound p (Or.inl rfl)
            have h2 := primLt_trans hrm hmp
            rw [h1] at h2
            cases h2
        · rcases List.mem_cons.mp hq with rfl | h
          · exact ihbound q (Or.inl rfl)
          · exact ihbound q (Or.inr h)
    | false =>
      have heq : primsMax m (p :: tl) = primsMax m tl := by
        rw [show primsMax m (p :: tl) = primsMax (if primLt m p then p else m) tl from rfl,
            if_neg (by rw [hmp]; exact Bool.false_ne_true)]
      rcases ih m with ⟨ihmem, ihbound⟩
      rw [heq]
      constructor
      · rcases ihmem with h | h
        · exact Or.inl h
        · exact Or.inr (List.mem_cons_of_mem p h)
      · rintro q (rfl | hq)
        · exact ihbound q (Or.inl rfl)
        · rcases List.mem_cons.mp hq with rfl | h
          · cases hrp : primLt (primsMax m tl) q with
            | false => rfl
            | true =>
              have h3 := primLt_lt_le hrp hmp
              have h4 := ihbound m (Or.inl rfl)
              rw [h4] at h3
              cases h3
          · exact ihbound q (Or.inr h)

theorem pyMin_spec (p0 : Prim) (tl : List Prim) :
    pyMin (p0 :: tl) ∈ p0 :: tl
    ∧ ∀ q ∈ p0 :: tl, primLt q (pyMin (p0 :: tl)) = false := by
  have h := primsMin_spec tl p0
  constructor
  · rcases h.1 with heq | hmem
    · rw [show pyMin (p0 :: tl) = primsMin p0 tl from rfl, heq]
      exact List.mem_cons_self _ _
    · exact List.mem_cons_of_mem _ hmem
  · intro q hq
    rcases List.mem_cons.mp hq with rfl | hq'
    · exact h.2 q (Or.inl rfl)
    · exact h.2 q (Or.inr hq')

theorem pyMax_spec (p0 : Prim) (tl : List Prim) :
    pyMax (p0 :: tl) ∈ p0 :: tl
    ∧ ∀ q ∈ p0 :: tl, primLt (pyMax (p0 :: tl)) q = false := by
  have h := primsMax_spec tl p0
  constructor
  · rcases h.1 with heq | hmem
    · rw [show pyMax (p0 :: tl) = primsMax p0 tl from rfl, heq]
      exact List.mem_cons_self _ _
    · exact List.mem_cons_of_mem _ hmem
  · intro q hq
    rcases List.mem_cons.mp hq with rfl | hq'
    · exact h.2 q (Or.inl rfl)
    · exact h.2 q (Or.inr hq')

/-- C7 counterexample: in this Python 2 code, "{0}".format(type(obj))
renders the type as "<type ...>", so classifying [1,2,3,4,5] yields
a summary whose head is the py2 type rendering of the list type, not
the bare word list, and similarly for the empty tuple: the computed
strings below differ from the strings the claim predicts. -/
theorem c7_counterexample :
    (tracker c7gen c7st c7listObj).1
      = TrackResult.str "<type \x27list\x27> len=5 min=1 max=5"
    ∧ "<type \x27list\x27> len=5 min=1 max=5" ≠ "list len=5 min=1 max=5"
    ∧ (tracker c7gen c7st c7tupObj).1 = TrackResult.str "<type \x27tuple\x27> len=0"
    ∧ "<type \x27tuple\x27> len=0" ≠ "tuple len=0" :=
  ⟨rfl, by decide, rfl, by decide⟩

/-- C7 amended: for a container whose every element is an untracked
primitive, classification returns
"<str of the container type> len=N min=M max=X" when non-empty (N the
length, M and X the Python min and max of the elements) and
"<str of the container type> len=0" when empty, where Python 2
renders the type of a built-in container as "<type ...>"; the min and
max so rendered are elements of the container that no element is
below, respectively above, in the Python 2 comparison order. -/
theorem c7_semitracked_format (gen : Nat → String) (st : TrackState) (o : PyObj)
    (ck : CKind) (elems : List PyObjVal)
    (hv : o.val = PyObjVal.container ck elems)
    (hp : elems.all isPrimObj = true) :
    tracker gen st o =
      (if elems.length > 0 then
        TrackResult.str (ckindStr ck ++ " len=" ++ toString elems.length
          ++ " min=" ++ primStr (pyMin (elems.filterMap toPrim))
          ++ " max=" ++ primStr (pyMax (elems.filterMap toPrim)))
       else TrackResult.str (ckindStr ck ++ " len=0"), st)
    ∧ (∀ (p0 : Prim) (tl : List Prim),
        pyMin (p0 :: tl) ∈ p0 :: tl
        ∧ pyMax (p0 :: tl) ∈ p0 :: tl
        ∧ ∀ q ∈ p0 :: tl,
            primLt q (pyMin (p0 :: tl)) = false
            ∧ primLt (pyMax (p0 :: tl)) q = false) := by
  constructor
  · unfold tracker
    rw [hv]
    show (if elems.all isPrimObj then
            if elems.length > 0 then
              (TrackResult.str (ckindStr ck ++ " len=" ++ toString elems.length
                ++ " min=" ++ primStr (pyMin (elems.filterMap toPrim))
                ++ " max=" ++ primStr (pyMax (elems.filterMap toPrim))), st)
            else (TrackResult.str (ckindStr ck ++ " len=0"), st)
          else trackObj gen st o) = _
    rw [if_pos hp]
    by_cases hl : elems.length > 0
    · rw [if_pos hl, if_pos hl]
    · rw [if_neg hl, if_neg hl]
  · intro p0 tl
    exact ⟨(pyMin_spec p0 tl).1, (pyMax_spec p0 tl).1,
      fun q hq => ⟨(pyMin_spec p0 tl).2 q hq, (pyMax_spec p0 tl).2 q hq⟩⟩

/-- Witness for the amended C7 at the two scenario inputs. -/
theorem c7_semitracked_format_witness :
    tracker c7gen c7st c7listObj
      = (TrackResult.str "<type \x27list\x27> len=5 min=1 max=5", c7st)
    ∧ tracker c7gen c7st c7tupObj = (TrackResult.str "<type \x27tuple\x27> len=0", c7st) := by
  have h1 := c7_semitracked_format c7gen c7st c7listObj CKind.list _ rfl rfl
  have h2 := c7_semitracked_format c7gen c7st c7tupObj CKind.tuple [] rfl rfl
  exact ⟨h1.1, h2.1⟩

/-! Equation lemmas for tracker, keyed by the shape of the object. -/

theorem tracker_val_container (gen : Nat → String) (st : TrackState) (o : PyObj)
    (ck : CKind) (elems : List PyObjVal) (hv : o.val = PyObjVal.container ck elems) :
    tracker gen st o =
      (if elems.all isPrimObj then
        if elems.length > 0 then
          (TrackResult.str (ckindStr ck ++ " len=" ++ toString elems.length
            ++ " min=" ++ primStr (pyMin (elems.filterMap toPrim))
            ++ " max=" ++ primStr (pyMax (elems.filterMap toPrim))), st)
        else (TrackResult.str (ckindStr ck ++ " len=0"), st)
       else trackObj gen st o) := by
  unfold tracker
  rw [hv]

theorem tracker_val_typeObj (gen : Nat → String) (st : TrackState) (o : PyObj)
    (name : String) (hv : o.val = PyObjVal.typeObj name) :
    tracker gen st o = (TrackResult.str name, st) := by
  unfold tracker
  rw [hv]

theorem tracker_val_lambdaObj (gen : Nat → String) (st : TrackState) (o : PyObj)
    (vs : List String) (hv : o.val = PyObjVal.lambdaObj vs) :
    tracker gen st o = (TrackResult.str ("lambda (" ++ String.intercalate ", " vs ++ ")"), st) := by
  unfold tracker
  rw [hv]

theorem tracker_val_funcObj (gen : Nat → String) (st : TrackState) (o : PyObj)
    (name : String) (hv : o.val = PyObjVal.funcObj name) :
    tracker gen st o = (TrackResult.str name, st) := by
  unfold tracker
  rw [hv]

theorem tracker_val_methodObj (gen : Nat → String) (st : TrackState) (o : PyObj)
    (name : String) (hv : o.val = PyObjVal.methodObj name) :
    tracker gen st o = (TrackResult.str name, st) := by
  unfold tracker
  rw [hv]

theorem tracker_val_ufuncObj (gen : Nat → String) (st : TrackState) (o : PyObj)
    (name : String) (hv : o.val = PyObjVal.ufuncObj name) :
    tracker gen st o = (TrackResult.str ("numpy." ++ name), st) := by
  unfold tracker
  rw [hv]

theorem tracker_val_prim (gen : Nat → String) (st : TrackState) (o : PyObj)
    (p : Prim) (hv : o.val = PyObjVal.prim p) :
    tracker gen st o = (TrackResult.none, st) := by
  unfold tracker
  rw [hv]

theorem tracker_val_other (gen : Nat → String) (st : TrackState) (o : PyObj)
    (hv : o.val = PyObjVal.other) :
    tracker gen st o = trackObj gen st o := by
  unfold tracker
  rw [hv]

theorem trackObj_found (gen : Nat → String) (st : TrackState) (o : PyObj) (j : Instance)
    (h : alookup o.oid st.oids = some j) :
    trackObj gen st o = (TrackResult.inst j, st) := by
  unfold trackObj
  rw [h]

theorem trackObj_fresh (gen : Nat → String) (st : TrackState) (o : PyObj)
    (h : alookup o.oid st.oids = Option.none) :
    trackObj gen st o =
      (TrackResult.inst ⟨o.oid, gen st.counter, o⟩,
       ⟨st.oids ++ [(o.oid, ⟨o.oid, gen st.counter, o⟩)],
        st.uuids ++ [(gen st.counter, ⟨o.oid, gen st.counter, o⟩)],
        st.counter + 1⟩) := by
  unfold trackObj
  rw [h]

/-- An object classified Tracked is classified through the tracked
fallback branch in every state: the branch taken depends only on the
object. -/
theorem tracker_inst_arm (gen : Nat → String) (st : TrackState) (o : PyObj)
    (i : Instance) (st' : TrackState)
    (h : tracker gen st o = (TrackResult.inst i, st')) :
    ∀ (gen2 : Nat → String) (st2 : TrackState),
      tracker gen2 st2 o = trackObj gen2 st2 o := by
  intro gen2 st2
  cases hv : o.val with
  | container ck elems =>
    rw [tracker_val_container gen st o ck elems hv] at h
    rw [tracker_val_container gen2 st2 o ck elems hv]
    by_cases hc : elems.all isPrimObj = true
    · rw [if_pos hc] at h
      exfalso
      by_cases hl : elems.length > 0
      · rw [if_pos hl] at h
        simp at h
      · rw [if_neg hl] at h
        simp at h
    · rw [if_neg hc]
  | typeObj name =>
    rw [tracker_val_typeObj gen st o name hv] at h
    simp at h
  | lambdaObj vs =>
    rw [tracker_val_lambdaObj gen st o vs hv] at h
    simp at h
  | funcObj name =>
    rw [tracker_val_funcObj gen st o name hv] at h
    simp at h
  | methodObj name =>
    rw [tracker_val_methodObj gen st o name hv] at h
    simp at h
  | ufuncObj name =>
    rw [tracker_val_ufuncObj gen st o name hv] at h
    simp at h
  | prim p =>
    rw [tracker_val_prim gen st o p hv] at h
    simp at h
  | other => exact tracker_val_other gen2 st2 o hv

/-- C2: identity stability. A second tracker call on an object that
was classified Tracked returns the same Instance and leaves the state
unchanged; the first tracking of a fresh object leaves exactly one
entry for it in the process-wide uuids index; and two distinct
objects tracked in sequence receive distinct durable identities, for
any injective fresh-identity supply and any well-formed starting
state. -/
theorem c2_identity_stability (gen : Nat → String) (st st1 st2 : TrackState)
    (A B : PyObj) (iA iB : Instance) :
    (tracker gen st A = (TrackResult.inst iA, st1) →
      tracker gen st1 A = (TrackResult.inst iA, st1))
    ∧ (tracker gen st A = (TrackResult.inst iA, st1) →
        alookup A.oid st.oids = Option.none →
        (st.uuids.filter (fun p => p.2.pid == A.oid)).length = 0 →
        (st1.uuids.filter (fun p => p.2.pid == A.oid)).length = 1)
    ∧ (Function.Injective gen → TrackInv gen st → A.oid ≠ B.oid →
        tracker gen st A = (TrackResult.inst iA, st1) →
        tracker gen st1 B = (TrackResult.inst iB, st2) →
        iA.uuid ≠ iB.uuid) := by
  refine ⟨?_, ?_, ?_⟩
  · intro h
    have harm := tracker_inst_arm gen st A iA st1 h
    rw [harm gen st] at h
    cases hl : alookup A.oid st.oids with
    | some j =>
      rw [trackObj_found gen st A j hl] at h
      injection h with h1 h2
      injection h1 with h3
      rw [harm gen st1, ← h2, trackObj_found gen st A j hl, h3]
    | none =>
      rw [trackObj_fresh gen st A hl] at h
      injection h with h1 h2
      injection h1 with h3
      have hlook : alookup A.oid
          (st.oids ++ [(A.oid, (⟨A.oid, gen st.counter, A⟩ : Instance))])
          = some ⟨A.oid, gen st.counter, A⟩ := by
        rw [alookup_append_left _ _ _ hl]
        simp [alookup]
      rw [harm gen st1, ← h2, trackObj_found gen _ A _ hlook, h3]
  · intro h hfresh hcount
    have harm := tracker_inst_arm gen st A iA st1 h
    rw [harm gen st, trackObj_fresh gen st A hfresh] at h
    injection h with h1 h2
    rw [← h2]
    show ((st.uuids ++ [(gen st.counter, (⟨A.oid, gen st.counter, A⟩ : Instance))]).filter
      (fun p => p.2.pid == A.oid)).length = 1
    rw [List.filter_append, List.length_append, hcount]
    simp [List.filter]
  · intro hinj hinv hne hA hB
    have harmA := tracker_inst_arm gen st A iA st1 hA
    rw [harmA gen st] at hA
    have harmB := tracker_inst_arm gen st1 B iB st2 hB
    rw [harmB gen st1] at hB
    cases hlA : alookup A.oid st.oids with
    | some j =>
      rw [trackObj_found gen st A j hlA] at hA
      injection hA with h1 h2
      injection h1 with h3
      rw [← h2] at hB
      cases hlB : alookup B.oid st.oids with
      | some k =>
        rw [trackObj_found gen st B k hlB] at hB
        injection hB with h1b h2b
        injection h1b with h3b
        rw [← h3, ← h3b]
        exact hinv.2 (A.oid, j) (alookup_mem _ _ _ hlA)
          (B.oid, k) (alookup_mem _ _ _ hlB) hne
      | none =>
        rw [trackObj_fresh gen st B hlB] at hB
        injection hB with h1b h2b
        injection h1b with h3b
        obtain ⟨-, i, hi, hui⟩ := hinv.1 (A.oid, j) (alookup_mem _ _ _ hlA)
        rw [← h3, ← h3b]
        intro hc
        rw [hui] at hc
        have hc2 : gen i = gen st.counter := hc
        have := hinj hc2
        omega
    | none =>
      rw [trackObj_fresh gen st A hlA] at hA
      injection hA with h1 h2
      injection h1 with h3
      rw [← h2] at hB
      cases hlB : alookup B.oid
          (st.oids ++ [(A.oid, (⟨A.oid, gen st.counter, A⟩ : Instance))]) with
      | some k =>
        rw [trackObj_found gen _ B k hlB] at hB
        injection hB with h1b h2b
        injection h1b with h3b
        rw [← h3, ← h3b]
        rcases List.mem_append.mp (alookup_mem _ _ _ hlB) with hm | hm
        · obtain ⟨-, i, hi, hui⟩ := hinv.1 (B.oid, k) hm
          intro hc
          rw [hui] at hc
          have hc2 : gen st.counter = gen i := hc
          have := hinj hc2
          omega
        · exfalso
          simp at hm
          exact hne (hm.1.symm)
      | none =>
        rw [trackObj_fresh gen _ B hlB] at hB
        injection hB with h1b h2b
        injection h1b with h3b
        rw [← h3, ← h3b]
        intro hc
        have hc2 : gen st.counter = gen (st.counter + 1) := hc
        have := hinj hc2
        omega

/-- Witness for C2: a concrete run tracking two distinct objects from
the empty state: the second call on the first object is stable, the
uuids index holds exactly one entry for it, and the two identities
differ. -/
theorem c2_identity_stability_witness :
    tracker c2gen c2st1 c2A = (TrackResult.inst c2iA, c2st1)
    ∧ (c2st1.uuids.filter (fun p => p.2.pid == c2A.oid)).length = 1
    ∧ c2iA.uuid ≠ c2iB.uuid := by
  have hinj : Function.Injective c2gen := by
    intro a b hab
    have h2 := congrArg (fun s => s.data.length) hab
    simpa [c2gen] using h2
  have hinv : TrackInv c2gen c2st0 := by
    constructor
    · intro p hp
      simp [c2st0] at hp
    · intro p hp
      simp [c2st0] at hp
  have h := c2_identity_stability c2gen c2st0 c2st1 c2st2 c2A c2B c2iA c2iB
  exact ⟨h.1 rfl, h.2.1 rfl rfl rfl, h.2.2 hinj hinv (by decide) rfl rfl⟩

end Acorn
